import Mathlib

/-!
Shallow embedding of src/astrolog/celestials.py: the celestial-object
abstraction (Planet, Apside, BlackSun, FixedCelestial over the abstract
Celestial base) and the rise/transit search-and-validate algorithm, as a
Lean development over an abstract Swiss-Ephemeris engine.

Engine calls (swe.julday, swe.revjul, swe.rise_trans, swe.calc_ut,
swe.azalt, swe.nod_aps_ut, swe.fixstar_ut) are modelled as components of a
SweEngine record of pure functions, universally quantified in the theorems;
the process-wide topocentric frame set by swe.set_topo is modelled as
explicit state. Python floats are modelled as exact rationals; Python int()
is modelled as truncation toward zero.
-/

namespace Astrolog

/-! Swiss Ephemeris module constants, with the values of swephexp.h as
exposed by the swisseph Python binding. -/

def SUN : ℤ := 0

def MOON : ℤ := 1

def MERCURY : ℤ := 2

def VENUS : ℤ := 3

def MARS : ℤ := 4

def JUPITER : ℤ := 5

def SATURN : ℤ := 6

def URANUS : ℤ := 7

def NEPTUNE : ℤ := 8

def PLUTO : ℤ := 9

def EARTH : ℤ := 14

def AST_OFFSET : ℤ := 10000

def FLG_SWIEPH : ℕ := 2

def FLG_EQUATORIAL : ℕ := 2048

def FLG_TOPOCTR : ℕ := 32768

def CALC_RISE : ℕ := 1

def CALC_SET : ℕ := 2

def CALC_MTRANSIT : ℕ := 4

def CALC_ITRANSIT : ℕ := 8

def BIT_DISC_CENTER : ℕ := 256

def BIT_NO_REFRACTION : ℕ := 512

def BIT_ASTRO_TWILIGHT : ℕ := 4096

def BIT_FIXED_DISC_SIZE : ℕ := 16384

def NODBIT_OSCU : ℕ := 2

def NODBIT_FOPOINT : ℕ := 256

def EQU2HOR : ℕ := 1

/-- Python int() applied to a rational: truncation toward zero. -/
def pyInt (q : ℚ) : ℤ := if 0 ≤ q then ⌊q⌋ else ⌈q⌉

/-- An angle carried in degrees (the .degrees accessor used by the code). -/
structure Angle where
  degrees : ℚ
deriving DecidableEq

/-- GeoLocation: observer longitude and latitude. -/
structure GeoLocation where
  longitude : Angle
  latitude : Angle
deriving DecidableEq

/-- A Python datetime instant. The code only ever reads year, month, day,
hour and minute; second and microsecond are carried to express that they
are ignored. -/
structure Instant where
  year : ℤ
  month : ℤ
  day : ℤ
  hour : ℤ
  minute : ℤ
  second : ℤ
  microsecond : ℤ
deriving DecidableEq

/-- Ecliptic coordinate: longitude and latitude, degrees. -/
structure EclCoord where
  lon : ℚ
  lat : ℚ
deriving DecidableEq

/-- Equatorial coordinate: right ascension and declination, degrees. -/
structure EquatorCoord where
  ra : ℚ
  decl : ℚ
deriving DecidableEq

/-- Horizontal coordinate: azimuth and true altitude. -/
structure HorCoord where
  azimuth : ℚ
  true_alt : ℚ
deriving DecidableEq

/-- The body identifier handed to the engine: numeric code for planets and
apsides, catalog designator string for fixed objects. -/
inductive SweBodyId where
  | num (code : ℤ) : SweBodyId
  | star (designator : String) : SweBodyId
deriving DecidableEq

/-- Python-level runtime errors relevant to this module. -/
inductive PyError where
  | attributeError (attr : String) : PyError
deriving DecidableEq

/-- The abstract ephemeris engine: each swisseph primitive used by the code
is a pure function. Functions whose result is topocentric receive the
current topocentric frame (the state set by swe.set_topo) explicitly. -/
structure SweEngine where
  julday : ℤ → ℤ → ℤ → ℚ → ℚ
  revjul : ℚ → ℤ × ℤ × ℤ × ℚ
  rise_trans : ℚ → SweBodyId → ℕ → ℚ × ℚ × ℚ → ℚ → ℚ → ℕ → ℤ × ℚ
  calc_ut : Option (ℚ × ℚ) → ℚ → ℤ → ℕ → ℚ × ℚ
  azalt : ℚ → ℕ → ℚ × ℚ × ℚ → ℚ → ℚ → ℚ × ℚ × ℚ → ℚ × ℚ × ℚ
  nod_aps_ut : Option (ℚ × ℚ) → ℚ → ℤ → ℕ → ℕ → ℚ × ℚ
  fixstar_ut : Option (ℚ × ℚ) → String → ℚ → ℕ → ℚ × ℚ

/-- Process-wide engine state: the topocentric frame last set by
swe.set_topo (longitude, latitude), if any. -/
structure SweState where
  topo : Option (ℚ × ℚ)
deriving DecidableEq

/-- The concrete (instantiable) subclasses of the abstract Celestial class.
Planet and FixedCelestial store the code their own constructor assigned;
Apside itself stays abstract (it implements neither swe_ecl_coord nor
swe_equator_coord), so its only instantiable subclass is BlackSun, whose
inherited Apside constructor stores the code under the mangled attribute
name given in apside_dict below. -/
inductive CelestialObj where
  | planet (name : String) (swe_code : ℤ) : CelestialObj
  | blackSun (name : String) (swe_code : ℤ) : CelestialObj
  | fixed (name : String) (swe_code : String) : CelestialObj
deriving DecidableEq

/-- is_focal_point: False for Planet and FixedCelestial, True for Apside
and hence (by inheritance) for BlackSun. -/
def is_focal_point : CelestialObj → Bool
  | .planet _ _ => false
  | .blackSun _ _ => true
  | .fixed _ _ => false

/-- is_fixed: True only for FixedCelestial. -/
def is_fixed : CelestialObj → Bool
  | .planet _ _ => false
  | .blackSun _ _ => false
  | .fixed _ _ => true

/-- swe_id: Planet.swe_id reads the attribute stored by the Planet
constructor, Apside.swe_id (inherited by BlackSun) reads the attribute
stored by the Apside constructor, FixedCelestial.swe_id likewise; all
three accesses resolve to the attribute that the constructor of their own
class stored. -/
def swe_id : CelestialObj → SweBodyId
  | .planet _ code => .num code
  | .blackSun _ code => .num code
  | .fixed _ code => .star code

/-- The NAMES catalog of Celestial: canonical names to engine body codes. -/
def NAMES : List (String × ℤ) :=
  [("SUN", SUN), ("MOON", MOON), ("MERCURY", MERCURY), ("VENUS", VENUS),
   ("MARS", MARS), ("EARTH", EARTH), ("JUPITER", JUPITER),
   ("SATURN", SATURN), ("URANUS", URANUS), ("NEPTUNE", NEPTUNE),
   ("PLUTO", PLUTO), ("ERIS", AST_OFFSET + 136199),
   ("SEDNA", AST_OFFSET + 90377), ("QUAOAR", AST_OFFSET + 50000)]

/-- Celestial.swe_id_by_name: NAMES.get(name), raising on a miss. The
raised exception is modelled as the error branch of Except, carrying the
formatted message. -/
def swe_id_by_name (name : String) : Except String ℤ :=
  match NAMES.lookup name with
  | none => .error ("Unknown planet " ++ name)
  | some swe_code => .ok swe_code

/-- Planet.__init__(name, swe_code=None): stores the name and
`swe_code or Celestial.swe_id_by_name(name)`. Python `or` takes the
right operand when swe_code is None or 0 (both falsy). A raised
UnknownBodyError propagates: no object is produced. -/
def Planet_init (name : String) (swe_code : Option ℤ) :
    Except String CelestialObj :=
  match swe_code with
  | some c =>
      if c = 0 then (swe_id_by_name name).map (fun code => .planet name code)
      else .ok (.planet name c)
  | none => (swe_id_by_name name).map (fun code => .planet name code)

/-- The instance attribute dictionary produced by Apside.__init__ (which
BlackSun inherits): the private attribute `self.__swe_code` written inside
class Apside is name-mangled by Python to the key shown here. Only the
integer-valued attributes are carried (self.name is irrelevant to the
engine calls). -/
def apside_dict (swe_code : ℤ) : List (String × ℤ) :=
  [("_Apside__swe_code", swe_code)]

/-- BlackSun.swe_ecl_coord(jd, mean=False): builds iflag from
NODBIT_FOPOINT, adding NODBIT_OSCU when mean is false, then evaluates
`self.__swe_code` — which, written inside class BlackSun, is mangled to
the attribute name `_BlackSun__swe_code` and looked up in the instance
dictionary; a miss is an AttributeError raised before swe.nod_aps_ut is
invoked. On a hit the engine call returns the fourth element (ecliptic
position of the second focal point). -/
def blackSun_swe_ecl_coord (E : SweEngine) (topo : Option (ℚ × ℚ))
    (dict : List (String × ℤ)) (jd : ℚ) (mean : Bool) :
    Except PyError EclCoord :=
  let iflag := NODBIT_FOPOINT ||| (if mean then 0 else NODBIT_OSCU)
  match dict.lookup "_BlackSun__swe_code" with
  | none => .error (.attributeError "_BlackSun__swe_code")
  | some code =>
      let ecl := E.nod_aps_ut topo jd code iflag (FLG_SWIEPH ||| FLG_TOPOCTR)
      .ok ⟨ecl.1, ecl.2⟩

/-- BlackSun.swe_equator_coord(jd, mean=False): same shape as
blackSun_swe_ecl_coord with FLG_EQUATORIAL added to the calculation
flags. -/
def blackSun_swe_equator_coord (E : SweEngine) (topo : Option (ℚ × ℚ))
    (dict : List (String × ℤ)) (jd : ℚ) (mean : Bool) :
    Except PyError EquatorCoord :=
  let iflag := NODBIT_FOPOINT ||| (if mean then 0 else NODBIT_OSCU)
  match dict.lookup "_BlackSun__swe_code" with
  | none => .error (.attributeError "_BlackSun__swe_code")
  | some code =>
      let equator := E.nod_aps_ut topo jd code iflag
        (FLG_SWIEPH ||| FLG_TOPOCTR ||| FLG_EQUATORIAL)
      .ok ⟨equator.1, equator.2⟩

/-- The variant-specific raw ecliptic position (abstract swe_ecl_coord):
Planet.swe_ecl_coord calls swe.calc_ut, BlackSun.swe_ecl_coord goes
through the mangled-attribute path above (with its default mean=False, as
the base class calls it with one argument), FixedCelestial.swe_ecl_coord
calls swe.fixstar_ut. -/
def swe_ecl_coord (E : SweEngine) (topo : Option (ℚ × ℚ))
    (o : CelestialObj) (jd : ℚ) : Except PyError EclCoord :=
  match o with
  | .planet _ code =>
      let ecl := E.calc_ut topo jd code (FLG_SWIEPH ||| FLG_TOPOCTR)
      .ok ⟨ecl.1, ecl.2⟩
  | .blackSun _ code => blackSun_swe_ecl_coord E topo (apside_dict code) jd false
  | .fixed _ code =>
      let ecl := E.fixstar_ut topo code jd (FLG_SWIEPH ||| FLG_TOPOCTR)
      .ok ⟨ecl.1, ecl.2⟩

/-- The variant-specific raw equatorial position (abstract
swe_equator_coord), with FLG_EQUATORIAL added. -/
def swe_equator_coord (E : SweEngine) (topo : Option (ℚ × ℚ))
    (o : CelestialObj) (jd : ℚ) : Except PyError EquatorCoord :=
  match o with
  | .planet _ code =>
      let equator := E.calc_ut topo jd code
        (FLG_SWIEPH ||| FLG_TOPOCTR ||| FLG_EQUATORIAL)
      .ok ⟨equator.1, equator.2⟩
  | .blackSun _ code =>
      blackSun_swe_equator_coord E topo (apside_dict code) jd false
  | .fixed _ code =>
      let equator := E.fixstar_ut topo code jd
        (FLG_SWIEPH ||| FLG_TOPOCTR ||| FLG_EQUATORIAL)
      .ok ⟨equator.1, equator.2⟩

/-- Celestial.ecl_coord: swe.set_topo(lon, lat), then
jd = swe.julday(year, month, day, hour + minute/60), then the raw
ecliptic accessor of the variant. The returned pair carries the engine state after
the call (the frame set_topo installed). -/
def ecl_coord (E : SweEngine) (o : CelestialObj) (s : SweState)
    (t : Instant) (location : GeoLocation) :
    SweState × Except PyError EclCoord :=
  let s1 : SweState := ⟨some (location.longitude.degrees, location.latitude.degrees)⟩
  let jd := E.julday t.year t.month t.day ((t.hour : ℚ) + (t.minute : ℚ) / 60)
  (s1, swe_ecl_coord E s1.topo o jd)

/-- Celestial.equator_coord: same pattern, equatorial accessor. -/
def equator_coord (E : SweEngine) (o : CelestialObj) (s : SweState)
    (t : Instant) (location : GeoLocation) :
    SweState × Except PyError EquatorCoord :=
  let s1 : SweState := ⟨some (location.longitude.degrees, location.latitude.degrees)⟩
  let jd := E.julday t.year t.month t.day ((t.hour : ℚ) + (t.minute : ℚ) / 60)
  (s1, swe_equator_coord E s1.topo o jd)

/-- Celestial.hor_coord: set_topo, jd as above, equatorial coordinate,
then swe.azalt(jd, EQU2HOR, geopos, atpress=0, attemp=0, pos) where
geopos = (lon, lat, 0.0) and pos = (ra, decl, 0.0); the result keeps
azimuth and the true altitude. -/
def hor_coord (E : SweEngine) (o : CelestialObj) (s : SweState)
    (t : Instant) (location : GeoLocation) :
    SweState × Except PyError HorCoord :=
  let s1 : SweState := ⟨some (location.longitude.degrees, location.latitude.degrees)⟩
  let jd := E.julday t.year t.month t.day ((t.hour : ℚ) + (t.minute : ℚ) / 60)
  match swe_equator_coord E s1.topo o jd with
  | .error e => (s1, .error e)
  | .ok coord =>
      let geopos := (location.longitude.degrees, location.latitude.degrees, (0 : ℚ))
      let pos := (coord.ra, coord.decl, (0 : ℚ))
      let atpress : ℚ := 0
      let attemp : ℚ := 0
      let res := E.azalt jd EQU2HOR geopos atpress attemp pos
      (s1, .ok ⟨res.1, res.2.1⟩)

/-- datetime.timedelta(hours=, minutes=, seconds=) with the integer
components the algorithm passes. -/
structure Timedelta where
  hours : ℤ
  minutes : ℤ
  seconds : ℤ
deriving DecidableEq

/-- The duration re-read as fractional hours:
hours + minutes/60 + seconds/3600. -/
def Timedelta.toHours (d : Timedelta) : ℚ :=
  (d.hours : ℚ) + (d.minutes : ℚ) / 60 + (d.seconds : ℚ) / 3600

/-- Lines 90 to 93 of the algorithm: hours = int(tm);
minutes = (tm - hours) * 60; seconds = (tm - hours - int(minutes)/60)
* 60 * 60; the returned timedelta takes hours, int(minutes),
int(seconds). -/
def decompose (tm : ℚ) : Timedelta :=
  let hours := pyInt tm
  let minutes := (tm - (hours : ℚ)) * 60
  let seconds := (tm - (hours : ℚ) - ((pyInt minutes : ℤ) : ℚ) / 60) * 60 * 60
  ⟨hours, pyInt minutes, pyInt seconds⟩

/-- One recorded invocation of swe.rise_trans with the exact arguments the
code passes. -/
structure RiseTransCall where
  tjdut : ℚ
  body : SweBodyId
  rsmi : ℕ
  geopos : ℚ × ℚ × ℚ
  atpress : ℚ
  attemp : ℚ
  flags : ℕ
deriving DecidableEq

/-- Celestial.__rise_trans(when, location, rsmi): the day-scoped
search-and-validate routine. Returns the optional day-scoped duration
together with the list of swe.rise_trans invocations made (empty when the
focal-point short-circuit fires, a singleton otherwise). -/
def rise_trans_impl (E : SweEngine) (o : CelestialObj) (whenT : Instant)
    (location : GeoLocation) (rsmi : ℕ) :
    Option Timedelta × List RiseTransCall :=
  if is_focal_point o then (none, [])
  else
    let tjdut := E.julday whenT.year whenT.month whenT.day 0
    let flags := FLG_SWIEPH ||| FLG_TOPOCTR
    let rsmi2 := rsmi ||| BIT_DISC_CENTER ||| BIT_FIXED_DISC_SIZE |||
      BIT_NO_REFRACTION ||| BIT_ASTRO_TWILIGHT
    let lon := location.longitude.degrees
    let lat := location.latitude.degrees
    let alt : ℚ := 0
    let atpress : ℚ := 0
    let attemp : ℚ := 0
    let call : RiseTransCall :=
      ⟨tjdut, swe_id o, rsmi2, (lon, lat, alt), atpress, attemp, flags⟩
    let res := E.rise_trans tjdut (swe_id o) rsmi2 (lon, lat, alt) atpress attemp flags
    let found := res.1
    let jultime := res.2
    let result : Option Timedelta :=
      if found ≠ 0 then none
      else
        let rev := E.revjul jultime
        if rev.1 ≠ whenT.year ∨ rev.2.1 ≠ whenT.month ∨ rev.2.2.1 ≠ whenT.day then
          none
        else some (decompose rev.2.2.2)
    (result, [call])

/-- Celestial.rises. -/
def rises (E : SweEngine) (o : CelestialObj) (t : Instant)
    (location : GeoLocation) : Option Timedelta × List RiseTransCall :=
  rise_trans_impl E o t location CALC_RISE

/-- Celestial.sets. -/
def sets (E : SweEngine) (o : CelestialObj) (t : Instant)
    (location : GeoLocation) : Option Timedelta × List RiseTransCall :=
  rise_trans_impl E o t location CALC_SET

/-- Celestial.mc_trans (upper transit). -/
def mc_trans (E : SweEngine) (o : CelestialObj) (t : Instant)
    (location : GeoLocation) : Option Timedelta × List RiseTransCall :=
  rise_trans_impl E o t location CALC_MTRANSIT

/-- Celestial.ic_trans (lower transit). -/
def ic_trans (E : SweEngine) (o : CelestialObj) (t : Instant)
    (location : GeoLocation) : Option Timedelta × List RiseTransCall :=
  rise_trans_impl E o t location CALC_ITRANSIT

/-- The dictionary returned by Celestial.transits: exactly the four keys
rise, set, mc, ic. -/
structure TransitDict where
  rise : Option Timedelta × List RiseTransCall
  set : Option Timedelta × List RiseTransCall
  mc : Option Timedelta × List RiseTransCall
  ic : Option Timedelta × List RiseTransCall
deriving DecidableEq

/-- Celestial.transits: each entry is the corresponding individual query
on the same instant and location. -/
def transits (E : SweEngine) (o : CelestialObj) (t : Instant)
    (location : GeoLocation) : TransitDict :=
  ⟨rises E o t location, sets E o t location,
   mc_trans E o t location, ic_trans E o t location⟩

/-- A concrete engine (every primitive returns zeros) used to instantiate
universally quantified theorems on closed inputs. -/
def trivEngine : SweEngine where
  julday := fun _ _ _ _ => 0
  revjul := fun _ => (0, 0, 0, 0)
  rise_trans := fun _ _ _ _ _ _ _ => (0, 0)
  calc_ut := fun _ _ _ _ => (0, 0)
  azalt := fun _ _ _ _ _ _ => (0, 0, 0)
  nod_aps_ut := fun _ _ _ _ _ => (0, 0)
  fixstar_ut := fun _ _ _ _ => (0, 0)

/-- An engine whose search always succeeds at jultime 0 but whose reverse
calendar conversion lands on 2000-01-02: used to exercise the cross-day
branch on closed inputs. -/
def crossDayEngine : SweEngine where
  julday := fun _ _ _ _ => 0
  revjul := fun _ => (2000, 1, 2, 12)
  rise_trans := fun _ _ _ _ _ _ _ => (0, 0)
  calc_ut := fun _ _ _ _ => (0, 0)
  azalt := fun _ _ _ _ _ _ => (0, 0, 0)
  nod_aps_ut := fun _ _ _ _ _ => (0, 0)
  fixstar_ut := fun _ _ _ _ => (0, 0)

/-- An engine whose search reports not-found (the circumpolar signal -2):
used to exercise the not-found branch on closed inputs. -/
def notFoundEngine : SweEngine where
  julday := fun _ _ _ _ => 0
  revjul := fun _ => (0, 0, 0, 0)
  rise_trans := fun _ _ _ _ _ _ _ => (-2, 0)
  calc_ut := fun _ _ _ _ => (0, 0)
  azalt := fun _ _ _ _ _ _ => (0, 0, 0)
  nod_aps_ut := fun _ _ _ _ _ => (0, 0)
  fixstar_ut := fun _ _ _ _ => (0, 0)

/-- A sample observer location. -/
def loc0 : GeoLocation := ⟨⟨30⟩, ⟨50⟩⟩

/-- A sample instant: 2000-01-01 12:34:56.000007. -/
def t0 : Instant := ⟨2000, 1, 1, 12, 34, 56, 7⟩

/-- An engine that finds an event at jultime 0 and whose reverse calendar
conversion lands on the queried day 2000-01-01 at fractional hour 3.5:
used to exercise the successful decomposition branch on closed inputs. -/
def sameDayEngine : SweEngine where
  julday := fun _ _ _ _ => 0
  revjul := fun _ => (2000, 1, 1, 7 / 2)
  rise_trans := fun _ _ _ _ _ _ _ => (0, 0)
  calc_ut := fun _ _ _ _ => (0, 0)
  azalt := fun _ _ _ _ _ _ => (0, 0, 0)
  nod_aps_ut := fun _ _ _ _ _ => (0, 0)
  fixstar_ut := fun _ _ _ _ => (0, 0)

/-- The sample instant with the seconds and microseconds cleared. -/
def t0clean : Instant := ⟨2000, 1, 1, 12, 34, 0, 0⟩

/-- The arguments the algorithm hands to swe.rise_trans for a given query,
as a record. -/
def expectedCall (E : SweEngine) (o : CelestialObj) (t : Instant)
    (location : GeoLocation) (rsmi : ℕ) : RiseTransCall :=
  ⟨E.julday t.year t.month t.day 0, swe_id o,
   rsmi ||| BIT_DISC_CENTER ||| BIT_FIXED_DISC_SIZE ||| BIT_NO_REFRACTION |||
     BIT_ASTRO_TWILIGHT,
   (location.longitude.degrees, location.latitude.degrees, 0), 0, 0,
   FLG_SWIEPH ||| FLG_TOPOCTR⟩

/-! Theorems -/

/-- C1: for every object whose is_focal_point() is true, every transit
query (rises, sets, mc_trans, ic_trans, and every entry of the transits
mapping) returns absent for any instant, observer and engine, and the
rise_trans search primitive of the engine is never invoked (the recorded call
list is empty). -/
theorem C1_focal_point_transits_absent (E : SweEngine) (o : CelestialObj)
    (t : Instant) (location : GeoLocation) (h : is_focal_point o = true) :
    rises E o t location = (none, []) ∧
    sets E o t location = (none, []) ∧
    mc_trans E o t location = (none, []) ∧
    ic_trans E o t location = (none, []) ∧
    transits E o t location =
      ⟨(none, []), (none, []), (none, []), (none, [])⟩ := by
  refine ⟨?_, ?_, ?_, ?_, ?_⟩ <;>
    simp [rises, sets, mc_trans, ic_trans, transits, rise_trans_impl, h]

/-- Witness for C1 at the BlackSun object for Earth. -/
theorem C1_focal_point_transits_absent_instance :
    is_focal_point (.blackSun "BS Earth" EARTH) = true ∧
    rises trivEngine (.blackSun "BS Earth" EARTH) t0 loc0 = (none, []) ∧
    transits trivEngine (.blackSun "BS Earth" EARTH) t0 loc0 =
      ⟨(none, []), (none, []), (none, []), (none, [])⟩ := by
  have h := C1_focal_point_transits_absent trivEngine
    (.blackSun "BS Earth" EARTH) t0 loc0 rfl
  exact ⟨rfl, h.1, h.2.2.2.2⟩

/-- C2: for every body, event kind and observer, if the engine search
returns a found event (flag 0) whose calendar date, converted back with
revjul, differs from the queried day in any of the year, month or day
fields, the transit query returns absent. -/
theorem C2_cross_day_event_absent (E : SweEngine) (o : CelestialObj)
    (t : Instant) (location : GeoLocation) (rsmi : ℕ) (jultime tm : ℚ)
    (y m d : ℤ)
    (hcall : E.rise_trans (E.julday t.year t.month t.day 0) (swe_id o)
      (rsmi ||| BIT_DISC_CENTER ||| BIT_FIXED_DISC_SIZE |||
        BIT_NO_REFRACTION ||| BIT_ASTRO_TWILIGHT)
      (location.longitude.degrees, location.latitude.degrees, 0) 0 0
      (FLG_SWIEPH ||| FLG_TOPOCTR) = (0, jultime))
    (hrev : E.revjul jultime = (y, m, d, tm))
    (hne : y ≠ t.year ∨ m ≠ t.month ∨ d ≠ t.day) :
    (rise_trans_impl E o t location rsmi).1 = none := by
  by_cases hf : is_focal_point o = true
  · simp [rise_trans_impl, hf]
  · simp only [Bool.not_eq_true] at hf
    unfold rise_trans_impl
    rw [hf, if_neg Bool.false_ne_true]
    simp only [hcall, hrev]
    rcases hne with h | h | h <;> simp [h]

/-- Witness for C2: an engine that finds an event but whose reverse
conversion lands on 2000-01-02 while the query is for 2000-01-01. -/
theorem C2_cross_day_event_absent_instance :
    crossDayEngine.revjul 0 = (2000, 1, 2, 12) ∧
    (rise_trans_impl crossDayEngine (.planet "SUN" SUN) t0 loc0
      CALC_RISE).1 = none := by
  refine ⟨rfl, ?_⟩
  exact C2_cross_day_event_absent crossDayEngine (.planet "SUN" SUN) t0 loc0
    CALC_RISE 0 12 2000 1 2 rfl rfl (by decide)

/-- C5: resolving a name absent from the NAMES catalog fails with the
unknown-body error and produces no object; resolving a catalog name
succeeds with the mapped engine body code. -/
theorem C5_name_resolution (name : String) :
    (NAMES.lookup name = none →
      Planet_init name none = .error ("Unknown planet " ++ name)) ∧
    (∀ swe_code : ℤ, NAMES.lookup name = some swe_code →
      Planet_init name none = .ok (.planet name swe_code)) := by
  constructor
  · intro h
    simp [Planet_init, swe_id_by_name, h, Except.map]
  · intro swe_code h
    simp [Planet_init, swe_id_by_name, h, Except.map]

/-- Witness for C5 at the unknown name VULCAN and the catalog name SUN. -/
theorem C5_name_resolution_instance :
    Planet_init "VULCAN" none = .error "Unknown planet VULCAN" ∧
    Planet_init "SUN" none = .ok (.planet "SUN" SUN) :=
  ⟨(C5_name_resolution "VULCAN").1 rfl,
   (C5_name_resolution "SUN").2 SUN rfl⟩

/-- C6: for every non-focal-point body, event kind and observer, when the
engine search reports not-found (a nonzero flag), the transit query
returns absent — the same normal optional outcome as the cross-day case,
not an error. -/
theorem C6_not_found_absent (E : SweEngine) (o : CelestialObj)
    (t : Instant) (location : GeoLocation) (rsmi : ℕ) (f : ℤ) (jultime : ℚ)
    (hnf : is_focal_point o = false)
    (hcall : E.rise_trans (E.julday t.year t.month t.day 0) (swe_id o)
      (rsmi ||| BIT_DISC_CENTER ||| BIT_FIXED_DISC_SIZE |||
        BIT_NO_REFRACTION ||| BIT_ASTRO_TWILIGHT)
      (location.longitude.degrees, location.latitude.degrees, 0) 0 0
      (FLG_SWIEPH ||| FLG_TOPOCTR) = (f, jultime))
    (hf : f ≠ 0) :
    (rise_trans_impl E o t location rsmi).1 = none := by
  unfold rise_trans_impl
  rw [hnf, if_neg Bool.false_ne_true]
  simp only [hcall]
  simp [hf]

/-- Witness for C6: an engine that reports the circumpolar not-found
signal -2 for a planet query. -/
theorem C6_not_found_absent_instance :
    notFoundEngine.rise_trans 0 (swe_id (.planet "SUN" SUN))
      (CALC_RISE ||| BIT_DISC_CENTER ||| BIT_FIXED_DISC_SIZE |||
        BIT_NO_REFRACTION ||| BIT_ASTRO_TWILIGHT) (30, 50, 0) 0 0
      (FLG_SWIEPH ||| FLG_TOPOCTR) = (-2, 0) ∧
    (rise_trans_impl notFoundEngine (.planet "SUN" SUN) t0 loc0
      CALC_RISE).1 = none := by
  refine ⟨rfl, ?_⟩
  exact C6_not_found_absent notFoundEngine (.planet "SUN" SUN) t0 loc0
    CALC_RISE (-2) 0 rfl rfl (by decide)

/-- C7: for every non-focal-point object the engine search is invoked
exactly once, with the search start julday(year, month, day, 0) of the
queried calendar day, the event kind augmented with exactly the
disc-center, fixed-disc-size, no-refraction and astronomical-twilight
flags, geopos (longitude, latitude, 0), pressure 0 and temperature 0, and
flags FLG_SWIEPH plus FLG_TOPOCTR; consequently two instants on the same
calendar day yield identical transit results. -/
theorem C7_engine_call_arguments (E : SweEngine) (o : CelestialObj)
    (t : Instant) (location : GeoLocation) (rsmi : ℕ)
    (hnf : is_focal_point o = false) :
    (rise_trans_impl E o t location rsmi).2 =
      [expectedCall E o t location rsmi] ∧
    ∀ t2 : Instant, t2.year = t.year → t2.month = t.month →
      t2.day = t.day →
      rise_trans_impl E o t2 location rsmi =
        rise_trans_impl E o t location rsmi := by
  constructor
  · unfold rise_trans_impl
    rw [hnf, if_neg Bool.false_ne_true]
    rfl
  · intro t2 h1 h2 h3
    simp only [rise_trans_impl, h1, h2, h3]

/-- Witness for C7 at a planet, two instants on the same day with
different times of day. -/
theorem C7_engine_call_arguments_instance :
    (rise_trans_impl trivEngine (.planet "SUN" SUN) t0 loc0 CALC_RISE).2 =
      [expectedCall trivEngine (.planet "SUN" SUN) t0 loc0 CALC_RISE] ∧
    rise_trans_impl trivEngine (.planet "SUN" SUN) ⟨2000, 1, 1, 23, 59, 59, 0⟩
        loc0 CALC_RISE =
      rise_trans_impl trivEngine (.planet "SUN" SUN) t0 loc0 CALC_RISE := by
  have h := C7_engine_call_arguments trivEngine (.planet "SUN" SUN) t0 loc0
    CALC_RISE rfl
  exact ⟨h.1, h.2 ⟨2000, 1, 1, 23, 59, 59, 0⟩ rfl rfl rfl⟩

/-- C8: the transits mapping has exactly the four event-kind entries, and
each one equals the corresponding individual query at the same instant
and observer, resolved independently. -/
theorem C8_transits_entries (E : SweEngine) (o : CelestialObj)
    (t : Instant) (location : GeoLocation) :
    (transits E o t location).rise = rises E o t location ∧
    (transits E o t location).set = sets E o t location ∧
    (transits E o t location).mc = mc_trans E o t location ∧
    (transits E o t location).ic = ic_trans E o t location :=
  ⟨rfl, rfl, rfl, rfl⟩

/-- On non-negative inputs Python int() truncation coincides with the
floor. -/
theorem pyInt_eq_floor {q : ℚ} (h : 0 ≤ q) : pyInt q = ⌊q⌋ := by
  unfold pyInt
  exact if_pos h

/-- The hour, minute, second decomposition truncates at each step, so the
reconstructed fractional hours never exceed the input. -/
theorem decompose_toHours_le (tm : ℚ) (h : 0 ≤ tm) :
    (decompose tm).toHours ≤ tm := by
  have hh : pyInt tm = ⌊tm⌋ := pyInt_eq_floor h
  have hfl : ((⌊tm⌋ : ℤ) : ℚ) ≤ tm := Int.floor_le tm
  have hfrac : (0 : ℚ) ≤ tm - ((⌊tm⌋ : ℤ) : ℚ) := by linarith
  have hm0 : (0 : ℚ) ≤ (tm - ((⌊tm⌋ : ℤ) : ℚ)) * 60 :=
    mul_nonneg hfrac (by norm_num)
  have hmint : pyInt ((tm - ((⌊tm⌋ : ℤ) : ℚ)) * 60) =
      ⌊(tm - ((⌊tm⌋ : ℤ) : ℚ)) * 60⌋ := pyInt_eq_floor hm0
  have hmle : ((⌊(tm - ((⌊tm⌋ : ℤ) : ℚ)) * 60⌋ : ℤ) : ℚ) ≤
      (tm - ((⌊tm⌋ : ℤ) : ℚ)) * 60 := Int.floor_le _
  have hs0 : (0 : ℚ) ≤
      (tm - ((⌊tm⌋ : ℤ) : ℚ) -
        ((⌊(tm - ((⌊tm⌋ : ℤ) : ℚ)) * 60⌋ : ℤ) : ℚ) / 60) * 60 * 60 := by
    nlinarith
  have hsint : pyInt ((tm - ((⌊tm⌋ : ℤ) : ℚ) -
      ((⌊(tm - ((⌊tm⌋ : ℤ) : ℚ)) * 60⌋ : ℤ) : ℚ) / 60) * 60 * 60) =
      ⌊(tm - ((⌊tm⌋ : ℤ) : ℚ) -
        ((⌊(tm - ((⌊tm⌋ : ℤ) : ℚ)) * 60⌋ : ℤ) : ℚ) / 60) * 60 * 60⌋ :=
    pyInt_eq_floor hs0
  have hsle : ((⌊(tm - ((⌊tm⌋ : ℤ) : ℚ) -
      ((⌊(tm - ((⌊tm⌋ : ℤ) : ℚ)) * 60⌋ : ℤ) : ℚ) / 60) * 60 * 60⌋ : ℤ) : ℚ) ≤
      (tm - ((⌊tm⌋ : ℤ) : ℚ) -
        ((⌊(tm - ((⌊tm⌋ : ℤ) : ℚ)) * 60⌋ : ℤ) : ℚ) / 60) * 60 * 60 :=
    Int.floor_le _
  simp only [decompose, Timedelta.toHours, hh, hmint, hsint]
  linarith

/-- C3: when the engine search finds an event whose reverse calendar
conversion matches the queried day with a non-negative fractional-hour
time-of-day tm, the returned duration is the step-wise truncated
decomposition of tm, and its reconstruction hours + minutes/60 +
seconds/3600 never exceeds tm. -/
theorem C3_truncation_property (E : SweEngine) (o : CelestialObj)
    (t : Instant) (location : GeoLocation) (rsmi : ℕ) (jultime tm : ℚ)
    (hnf : is_focal_point o = false)
    (hcall : E.rise_trans (E.julday t.year t.month t.day 0) (swe_id o)
      (rsmi ||| BIT_DISC_CENTER ||| BIT_FIXED_DISC_SIZE |||
        BIT_NO_REFRACTION ||| BIT_ASTRO_TWILIGHT)
      (location.longitude.degrees, location.latitude.degrees, 0) 0 0
      (FLG_SWIEPH ||| FLG_TOPOCTR) = (0, jultime))
    (hrev : E.revjul jultime = (t.year, t.month, t.day, tm))
    (htm : 0 ≤ tm) :
    (rise_trans_impl E o t location rsmi).1 = some (decompose tm) ∧
    (decompose tm).toHours ≤ tm := by
  refine ⟨?_, decompose_toHours_le tm htm⟩
  unfold rise_trans_impl
  rw [hnf, if_neg Bool.false_ne_true]
  simp only [hcall, hrev]
  simp

/-- Witness for C3: an engine finding an event at fractional hour 3.5 on
the queried day; the returned duration is 3 hours 30 minutes 0 seconds
and its reconstruction does not exceed 3.5 hours. -/
theorem C3_truncation_property_instance :
    (rise_trans_impl sameDayEngine (.planet "SUN" SUN) t0 loc0
      CALC_RISE).1 = some ⟨3, 30, 0⟩ ∧
    Timedelta.toHours ⟨3, 30, 0⟩ ≤ 7 / 2 := by
  have h := C3_truncation_property sameDayEngine (.planet "SUN" SUN) t0 loc0
    CALC_RISE 0 (7 / 2) rfl rfl rfl (by norm_num)
  have hfloor : ⌊(7 / 2 : ℚ)⌋ = 3 := by
    rw [Int.floor_eq_iff]
    norm_num
  have h30 : pyInt 30 = 30 := by
    rw [pyInt_eq_floor (by norm_num)]
    simp
  have hd : decompose (7 / 2) = ⟨3, 30, 0⟩ := by
    unfold decompose
    rw [pyInt_eq_floor (by norm_num), hfloor]
    norm_num
    refine ⟨h30, ?_⟩
    rw [h30]
    rw [show ((1 : ℚ) / 2 - ((30 : ℤ) : ℚ) / 60) * 60 * 60 = 0 by
      push_cast ; ring]
    rw [pyInt_eq_floor le_rfl]
    simp
  exact ⟨hd ▸ h.1, hd ▸ h.2⟩

/-- C4: the BlackSun coordinate methods compute the node/apsides flag
(focal point, plus osculating when mean is false) but then evaluate the
private attribute written as self.__swe_code inside class BlackSun, which
Python mangles to _BlackSun__swe_code; the inherited Apside constructor
stored the code under _Apside__swe_code only, so the lookup raises
AttributeError for every engine, instant and observer before
swe.nod_aps_ut can be invoked. The transit queries still skip the engine
search and return absent, as BlackSun inherits is_focal_point() = True. -/
theorem C4_blackSun_coordinate_attribute_failure (E : SweEngine)
    (topo : Option (ℚ × ℚ)) (nm : String) (code : ℤ) (jd : ℚ) (mean : Bool)
    (s : SweState) (t : Instant) (location : GeoLocation) :
    blackSun_swe_ecl_coord E topo (apside_dict code) jd mean =
      .error (.attributeError "_BlackSun__swe_code") ∧
    blackSun_swe_equator_coord E topo (apside_dict code) jd mean =
      .error (.attributeError "_BlackSun__swe_code") ∧
    (ecl_coord E (.blackSun nm code) s t location).2 =
      .error (.attributeError "_BlackSun__swe_code") ∧
    (equator_coord E (.blackSun nm code) s t location).2 =
      .error (.attributeError "_BlackSun__swe_code") ∧
    rises E (.blackSun nm code) t location = (none, []) ∧
    sets E (.blackSun nm code) t location = (none, []) ∧
    mc_trans E (.blackSun nm code) t location = (none, []) ∧
    ic_trans E (.blackSun nm code) t location = (none, []) :=
  ⟨rfl, rfl, rfl, rfl, rfl, rfl, rfl, rfl⟩

/-- C9: the coordinate queries are deterministic and stateless — each one
installs the observer frame before computing, so its result does not
depend on the incoming engine state, and an immediate repetition of the
same query (with the state the first call left behind) returns the same
coordinates. -/
theorem C9_coordinate_queries_deterministic (E : SweEngine)
    (o : CelestialObj) (t : Instant) (location : GeoLocation)
    (s1 s2 : SweState) :
    (ecl_coord E o s1 t location).2 = (ecl_coord E o s2 t location).2 ∧
    (equator_coord E o s1 t location).2 =
      (equator_coord E o s2 t location).2 ∧
    (hor_coord E o s1 t location).2 = (hor_coord E o s2 t location).2 ∧
    (ecl_coord E o (ecl_coord E o s1 t location).1 t location).2 =
      (ecl_coord E o s1 t location).2 ∧
    (equator_coord E o (equator_coord E o s1 t location).1 t location).2 =
      (equator_coord E o s1 t location).2 ∧
    (hor_coord E o (hor_coord E o s1 t location).1 t location).2 =
      (hor_coord E o s1 t location).2 :=
  ⟨rfl, rfl, rfl, rfl, rfl, rfl⟩

/-- C10: the engine time reference is built from year, month, day and
hour + minute/60 only, so two instants agreeing on those fields — however
they differ in seconds or microseconds — yield identical ecliptic,
equatorial and horizontal coordinates. -/
theorem C10_subminute_components_ignored (E : SweEngine)
    (o : CelestialObj) (location : GeoLocation) (s : SweState)
    (t1 t2 : Instant) (hy : t1.year = t2.year) (hmo : t1.month = t2.month)
    (hd : t1.day = t2.day) (hhr : t1.hour = t2.hour)
    (hmi : t1.minute = t2.minute) :
    ecl_coord E o s t1 location = ecl_coord E o s t2 location ∧
    equator_coord E o s t1 location = equator_coord E o s t2 location ∧
    hor_coord E o s t1 location = hor_coord E o s t2 location := by
  refine ⟨?_, ?_, ?_⟩ <;>
    simp only [ecl_coord, equator_coord, hor_coord, hy, hmo, hd, hhr, hmi]

/-- Witness for C10: the sample instants differing only in seconds and
microseconds give identical coordinates. -/
theorem C10_subminute_components_ignored_instance :
    ecl_coord trivEngine (.planet "SUN" SUN) ⟨none⟩ t0 loc0 =
      ecl_coord trivEngine (.planet "SUN" SUN) ⟨none⟩ t0clean loc0 ∧
    equator_coord trivEngine (.planet "SUN" SUN) ⟨none⟩ t0 loc0 =
      equator_coord trivEngine (.planet "SUN" SUN) ⟨none⟩ t0clean loc0 ∧
    hor_coord trivEngine (.planet "SUN" SUN) ⟨none⟩ t0 loc0 =
      hor_coord trivEngine (.planet "SUN" SUN) ⟨none⟩ t0clean loc0 :=
  C10_subminute_components_ignored trivEngine (.planet "SUN" SUN) loc0
    ⟨none⟩ t0 t0clean rfl rfl rfl rfl rfl

end Astrolog
